import Mathlib

/-!
Verification of the user-management service of RozhkoGoLang/UserManagementRestAPI.

Shallow embedding of `internal/repositories/user_repo.go`.  Machine state is a
list of user rows; gorm query outcomes are modelled by a record carrying the
`Error` and `RowsAffected` fields that the Go code branches on.  A storage
failure is injected through `DB.fail`: as in gorm, a failed query reports a
non-nil `Error` with `RowsAffected = 0`.  Times (`time.Time`) are integers with
0 as the zero value; `time.Now()` is passed in as a parameter where the Go code
calls it.  The service layer (`UserService.Vote`, cooldown logic) is not part of
the provided sources, only its tests are; it is modelled from the spec where
needed.
-/

deriving instance DecidableEq for Except

/-- Error codes of the apperrors taxonomy; `storage` stands for a raw
(untagged) error value passed through unchanged. -/
inductive ErrCode where
  | noRecordFound
  | insertionFailed
  | deletionFailed
  | voteCooldown
  | loggerInit
  | storage
deriving DecidableEq, Repr

/-- Tagged application error: a code plus the appended message. -/
structure AppError where
  code : ErrCode
  message : String
deriving DecidableEq, Repr

/-- models.User: integer identity, profile fields, role reference, the
vote-cooldown timestamp and the soft-delete timestamp (0 = zero value = not
deleted). -/
structure User where
  id : Nat
  email : String
  firstName : String
  lastName : String
  password : String
  roleID : Nat
  voteUpdatedAt : Int
  deletedAt : Int
deriving DecidableEq, Repr

/-- Go zero value of models.User. -/
def User.zero : User :=
  { id := 0, email := "", firstName := "", lastName := "", password := "",
    roleID := 0, voteUpdatedAt := 0, deletedAt := 0 }

/-- models.Vote: identity, voter, target profile and the signed value. -/
structure Vote where
  id : Nat
  userID : Nat
  profileID : Nat
  value : Int
deriving DecidableEq, Repr

/-- The user table plus an injected storage-level failure: when `fail` is set,
every query reports that error with `RowsAffected = 0`, as gorm does. -/
structure DB where
  rows : List User
  fail : Option String
deriving DecidableEq, Repr

/-- Outcome of a gorm `First` call: the `Error` and `RowsAffected` fields the
Go code inspects, plus the row scanned into the out-parameter. -/
structure GormResult where
  error : Option String
  rowsAffected : Nat
  user : Option User
deriving DecidableEq, Repr

/-- Run a `tx.First` query with the given WHERE predicate: on a healthy
connection it finds the first matching row or reports the gorm
record-not-found error; an injected failure is reported with zero rows
affected. -/
def runFirst (db : DB) (pred : User → Bool) : GormResult :=
  match db.fail with
  | some e => { error := some e, rowsAffected := 0, user := none }
  | none =>
    match db.rows.find? pred with
    | some u => { error := none, rowsAffected := 1, user := some u }
    | none => { error := some "record not found", rowsAffected := 0, user := none }

/-- WHERE clause `id = ? AND (deleted_at IS NULL OR deleted_at = zero)`. -/
def liveById (userID : Nat) (u : User) : Bool :=
  u.id == userID && u.deletedAt == 0

/-- UserRepo.GetUser: fetch a live row by id; on a query error, zero rows
affected is reported as NoRecordFound and anything else as
DeletionFailed. -/
def GetUser (db : DB) (userID : Nat) : Except AppError User :=
  let result := runFirst db (liveById userID)
  match result.error with
  | some e =>
    if result.rowsAffected == 0 then
      .error { code := .noRecordFound, message := "No user found with the given ID." }
    else
      .error { code := .deletionFailed, message := e }
  | none => .ok (result.user.getD User.zero)

/-- UserRepo.fetchUser, step 1 of the update pipeline: same body as GetUser in
the Go source (the code is duplicated there). -/
def fetchUser (db : DB) (userID : Nat) : Except AppError User :=
  let result := runFirst db (liveById userID)
  match result.error with
  | some e =>
    if result.rowsAffected == 0 then
      .error { code := .noRecordFound, message := "No user found with the given ID." }
    else
      .error { code := .deletionFailed, message := e }
  | none => .ok (result.user.getD User.zero)

/-- UserRepo.applyUserUpdates, step 2: if the patch carries a new email, first
look for any row holding it (query `email = ?`, with no soft-delete filter and
only `RowsAffected` inspected) and fail on a hit; then copy each non-empty /
non-zero patch field onto the fetched user. -/
def applyUserUpdates (db : DB) (user : User) (updatedData : User) : Except AppError User :=
  let emailStep : Except AppError User :=
    if updatedData.email != "" && updatedData.email != user.email then
      let result := runFirst db (fun u => u.email == updatedData.email)
      if result.rowsAffected > 0 then
        .error { code := .deletionFailed, message := "The email is already occupied by another user." }
      else
        .ok { user with email := updatedData.email }
    else
      .ok user
  match emailStep with
  | .error e => .error e
  | .ok u0 =>
    let u1 := if updatedData.firstName != "" then { u0 with firstName := updatedData.firstName } else u0
    let u2 := if updatedData.lastName != "" then { u1 with lastName := updatedData.lastName } else u1
    let u3 := if updatedData.password != "" then { u2 with password := updatedData.password } else u2
    let u4 := if !(updatedData.deletedAt == 0) then { u3 with deletedAt := updatedData.deletedAt } else u3
    let u5 := if updatedData.roleID > 0 then { u4 with roleID := updatedData.roleID } else u4
    .ok u5

/-- UserRepo.saveUser, step 3: gorm `Save` updates the row with the same
primary key; a storage failure is reported as DeletionFailed. -/
def saveUser (db : DB) (user : User) : Except AppError DB :=
  match db.fail with
  | some e => .error { code := .deletionFailed, message := e }
  | none => .ok { db with rows := db.rows.map (fun r => if r.id == user.id then user else r) }

/-- UserRepo.UpdateUser: the three-step fetch, merge, persist pipeline. -/
def UpdateUser (db : DB) (userID : Nat) (updatedData : User) : Except AppError (DB × User) := do
  let user ← fetchUser db userID
  let merged ← applyUserUpdates db user updatedData
  let db2 ← saveUser db merged
  return (db2, merged)

/-- UserRepo.DeleteUser: soft delete, delegating to UpdateUser with a patch
that only sets DeletedAt to the current time. -/
def DeleteUser (db : DB) (userID : Nat) (now : Int) : Except AppError (DB × User) :=
  UpdateUser db userID { User.zero with deletedAt := now }

/-- Pagination offset computed by ListUsers. -/
def listOffset (page pageSize : Int) : Int :=
  (page - 1) * pageSize

/-- UserRepo.ListUsers: limit/offset query over the non-deleted rows in
storage order.  Gorm ignores a negative offset and a negative limit; a
non-negative one drops, resp. takes, that many rows. -/
def ListUsers (db : DB) (page pageSize : Int) : Except AppError (List User) :=
  match db.fail with
  | some e => .error { code := .deletionFailed, message := e }
  | none =>
    let offset := listOffset page pageSize
    let base := db.rows.filter (fun u => u.deletedAt == 0)
    let afterOffset := base.drop offset.toNat
    let limited := if pageSize < 0 then afterOffset else afterOffset.take pageSize.toNat
    .ok limited

/-- UserRepo.GetUserByEmail: first live row with the email; on a query error,
zero rows affected yields a nil user with a nil error, otherwise the raw error
is returned unchanged. -/
def GetUserByEmail (db : DB) (email : String) : Except AppError (Option User) :=
  let tx := runFirst db (fun u => u.email == email && u.deletedAt == 0)
  match tx.error with
  | some e =>
    if tx.rowsAffected == 0 then
      .ok none
    else
      .error { code := .storage, message := e }
  | none => .ok (some (tx.user.getD User.zero))

/-- UserRepo.GetUserByID: point lookup by primary key with no soft-delete
filter; the gorm record-not-found error becomes NoRecordFound, any other
error is returned unchanged. -/
def GetUserByID (db : DB) (userID : Nat) : Except AppError User :=
  let result := runFirst db (fun u => u.id == userID)
  match result.error with
  | some e =>
    if e == "record not found" then
      .error { code := .noRecordFound, message := "User not found." }
    else
      .error { code := .storage, message := e }
  | none => .ok (result.user.getD User.zero)

/-- Combined storage state seen by the user service: the user table and the
vote table with the identity counter storage uses to assign vote ids. -/
structure ServiceState where
  userDB : DB
  votes : List Vote
  nextVoteID : Nat
deriving DecidableEq, Repr

/-- Storage calls issued during a service operation, in order; used to state
which lookups and writes an operation performs. -/
inductive StorageEvent where
  | getUserByID (userID : Nat)
  | getVote (userID profileID : Nat)
  | createVote (v : Vote)
  | updateVote (v : Vote)
  | refreshVoteUpdatedAt (userID : Nat)
deriving DecidableEq, Repr

/-- Whether a storage event is the refresh of the voter cooldown
timestamp. -/
def StorageEvent.isRefresh : StorageEvent → Bool
  | .refreshVoteUpdatedAt _ => true
  | _ => false

/-- Cooldown window of one hour, in seconds. -/
def voteCooldownWindow : Int := 3600

/-- Vote repository GetVote contract: the live vote for the (voter, profile)
pair, or nil. -/
def GetVote (votes : List Vote) (userID profileID : Nat) : Option Vote :=
  votes.find? (fun v => v.userID == userID && v.profileID == profileID)

/-- Build the vote record storage inserts for a create: the assigned identity
together with the requested voter, profile and value. -/
def mkVote (id userID profileID : Nat) (value : Int) : Vote :=
  { id := id, userID := userID, profileID := profileID, value := value }

/-- Refresh of the voter cooldown timestamp: sets VoteUpdatedAt of the voter
row to the current time. -/
def refreshVoter (s : ServiceState) (userID : Nat) (now : Int) : ServiceState :=
  { s with userDB := { s.userDB with
      rows := s.userDB.rows.map
        (fun u => if u.id == userID then { u with voteUpdatedAt := now } else u) } }

/-- Modelled from the spec: UserService.Vote.  The service source is not in
the provided files (only its tests are), so the flow follows section 4.2 of
the spec: load the voter by id, surfacing any failure as InsertionFailed;
fail with VoteCooldown when the time elapsed since VoteUpdatedAt is below the
one-hour window, before any vote lookup or write; otherwise create a new vote
for the (voter, profile) pair or update the existing one in place, returning
the created, resp. existing, identity; a successful vote refreshes the voter
VoteUpdatedAt exactly once.  The result is paired with the ordered trace of
storage calls performed. -/
def UserService.Vote (s : ServiceState) (req : Vote) (now : Int) :
    Except AppError (Nat × ServiceState) × List StorageEvent :=
  match GetUserByID s.userDB req.userID with
  | .error e =>
    (.error { code := .insertionFailed, message := e.message }, [.getUserByID req.userID])
  | .ok voter =>
    if now - voter.voteUpdatedAt < voteCooldownWindow then
      (.error { code := .voteCooldown, message := "The vote cooldown window has not elapsed." },
       [.getUserByID req.userID])
    else
      match GetVote s.votes req.userID req.profileID with
      | none =>
        let newVote := mkVote s.nextVoteID req.userID req.profileID req.value
        let s1 := refreshVoter
          { s with votes := s.votes ++ [newVote], nextVoteID := s.nextVoteID + 1 }
          req.userID now
        (.ok (newVote.id, s1),
         [.getUserByID req.userID, .getVote req.userID req.profileID,
          .createVote newVote, .refreshVoteUpdatedAt req.userID])
      | some existing =>
        let updated := { existing with value := req.value }
        let s1 := refreshVoter
          { s with votes := s.votes.map (fun v => if v.id == existing.id then updated else v) }
          req.userID now
        (.ok (existing.id, s1),
         [.getUserByID req.userID, .getVote req.userID req.profileID,
          .updateVote updated, .refreshVoteUpdatedAt req.userID])

/-! ### Helper lemmas about the repository operations -/

/-- GetUser and fetchUser have the same (duplicated) body in the source. -/
theorem getUser_eq_fetchUser : GetUser = fetchUser := rfl

/-- fetchUser succeeds exactly on a healthy connection whose first live row
with the id is the returned user. -/
theorem fetchUser_ok_iff (db : DB) (userID : Nat) (u : User) :
    fetchUser db userID = .ok u ↔
      db.fail = none ∧ db.rows.find? (liveById userID) = some u := by
  cases db with
  | mk rows fail =>
    cases fail with
    | some e => simp [fetchUser, runFirst]
    | none =>
      cases hfind : rows.find? (liveById userID) with
      | none => simp [fetchUser, runFirst, hfind]
      | some v => simp [fetchUser, runFirst, hfind, eq_comm]

/-- fetchUser reports NoRecordFound whenever no live row matches the id,
whether the query found nothing or failed outright (both leave zero rows
affected). -/
theorem fetchUser_not_found (db : DB) (userID : Nat)
    (h : db.rows.find? (liveById userID) = none) :
    fetchUser db userID =
      .error { code := .noRecordFound, message := "No user found with the given ID." } := by
  cases db with
  | mk rows fail =>
    cases fail with
    | some e => simp [fetchUser, runFirst]
    | none =>
      simp only [fetchUser, runFirst]
      simp only [h]
      rfl

/-- Inversion of the three-step update pipeline on success. -/
theorem UpdateUser_ok_inv (db : DB) (userID : Nat) (p : User) (db2 : DB) (w : User)
    (h : UpdateUser db userID p = .ok (db2, w)) :
    ∃ u, fetchUser db userID = .ok u ∧
      applyUserUpdates db u p = .ok w ∧ saveUser db w = .ok db2 := by
  unfold UpdateUser at h
  simp only [Bind.bind] at h
  cases hf : fetchUser db userID with
  | error e => rw [hf] at h; simp [Except.bind] at h
  | ok u =>
    rw [hf] at h
    simp only [Except.bind] at h
    cases ha : applyUserUpdates db u p with
    | error e => rw [ha] at h; simp [Except.bind] at h
    | ok w0 =>
      rw [ha] at h
      simp only [Except.bind] at h
      cases hs : saveUser db w0 with
      | error e => rw [hs] at h; simp [Except.bind] at h
      | ok db3 =>
        rw [hs] at h
        simp only [Except.bind, pure, Except.pure, Except.ok.injEq, Prod.mk.injEq] at h
        exact ⟨u, rfl, by rw [ha, h.2], by rw [← h.2, hs, h.1]⟩

/-- A failing fetch step short-circuits the whole update pipeline. -/
theorem UpdateUser_err_of_fetch (db : DB) (userID : Nat) (p : User) (e : AppError)
    (h : fetchUser db userID = .error e) :
    UpdateUser db userID p = .error e := by
  unfold UpdateUser
  rw [h]
  rfl

/-! ### Claim C7 -/

/-- C7: for every user with DeletedAt set and for every id with no stored
row, GetUser returns the NoRecordFound error, and GetUser never returns a
soft-deleted user. -/
theorem getUser_soft_deleted_not_found (db : DB) (userID : Nat) :
    ((∀ u ∈ db.rows, u.id = userID → u.deletedAt ≠ 0) →
      GetUser db userID =
        .error { code := .noRecordFound, message := "No user found with the given ID." }) ∧
    (∀ u, GetUser db userID = .ok u → u.deletedAt = 0) := by
  rw [getUser_eq_fetchUser]
  constructor
  · intro h
    apply fetchUser_not_found
    refine List.find?_eq_none.mpr ?_
    intro x hx
    simp only [liveById, Bool.and_eq_true, beq_iff_eq, not_and]
    exact fun h1 h2 => h x hx h1 h2
  · intro u hu
    obtain ⟨-, hfind⟩ := (fetchUser_ok_iff db userID u).mp hu
    have hpred := List.find?_some hfind
    simp only [liveById, Bool.and_eq_true, beq_iff_eq] at hpred
    exact hpred.2

/-- Witness for C7 at a one-row database whose only user is soft-deleted. -/
theorem getUser_soft_deleted_not_found_witness :
    GetUser { rows := [⟨1, "ann@example.com", "Ann", "Lee", "pw", 0, 0, 50⟩], fail := none } 1 =
      .error { code := .noRecordFound, message := "No user found with the given ID." } :=
  (getUser_soft_deleted_not_found
    { rows := [⟨1, "ann@example.com", "Ann", "Lee", "pw", 0, 0, 50⟩], fail := none } 1).1
    (by decide)

/-! ### Claim C9 -/

/-- C9: ListUsers pages the non-deleted rows in storage order, computing the
offset as (page-1)*pageSize and returning at most pageSize users; page 1 at
size 10 uses offset 0 and page 2 at size 10 uses offset 10. -/
theorem listUsers_offset_pagination (db : DB) (page pageSize : Int)
    (hfail : db.fail = none) (_hp : 1 ≤ page) (hs : 1 ≤ pageSize) :
    ListUsers db page pageSize =
      .ok (((db.rows.filter (fun u => u.deletedAt == 0)).drop
              (listOffset page pageSize).toNat).take pageSize.toNat) ∧
    (∀ l, ListUsers db page pageSize = .ok l →
      l.length ≤ pageSize.toNat ∧ ∀ u ∈ l, u.deletedAt = 0) ∧
    listOffset 1 10 = 0 ∧ listOffset 2 10 = 10 := by
  have hneg : ¬ pageSize < 0 := by omega
  have hmain : ListUsers db page pageSize =
      .ok (((db.rows.filter (fun u => u.deletedAt == 0)).drop
              (listOffset page pageSize).toNat).take pageSize.toNat) := by
    cases db with
    | mk rows fail =>
      cases hfail
      simp [ListUsers, hneg]
  refine ⟨hmain, ?_, by decide, by decide⟩
  intro l hl
  rw [hmain] at hl
  have hleq : l = ((db.rows.filter (fun u => u.deletedAt == 0)).drop
      (listOffset page pageSize).toNat).take pageSize.toNat := by
    injection hl.symm
  subst hleq
  refine ⟨List.length_take_le _ _, ?_⟩
  intro u hu
  have hdrop := List.take_subset _ _ hu
  have hfilter := List.drop_subset _ _ hdrop
  have hpred := (List.mem_filter.mp hfilter).2
  simpa [beq_iff_eq] using hpred

/-- Witness for C9: page 2 of size 1 over a three-row table with one deleted
row selects the second live user. -/
theorem listUsers_offset_pagination_witness :
    ListUsers { rows := [⟨1, "a@example.com", "A", "A", "p", 0, 0, 0⟩,
                         ⟨2, "b@example.com", "B", "B", "p", 0, 0, 77⟩,
                         ⟨3, "c@example.com", "C", "C", "p", 0, 0, 0⟩], fail := none } 2 1 =
      .ok [⟨3, "c@example.com", "C", "C", "p", 0, 0, 0⟩] :=
  ((listUsers_offset_pagination
    { rows := [⟨1, "a@example.com", "A", "A", "p", 0, 0, 0⟩,
               ⟨2, "b@example.com", "B", "B", "p", 0, 0, 77⟩,
               ⟨3, "c@example.com", "C", "C", "p", 0, 0, 0⟩], fail := none } 2 1
    rfl (by decide) (by decide)).1).trans (by decide)

/-- A conflicting email in the patch short-circuits the pipeline at the merge
step. -/
theorem UpdateUser_err_of_apply (db : DB) (userID : Nat) (p : User) (u : User) (e : AppError)
    (hf : fetchUser db userID = .ok u)
    (ha : applyUserUpdates db u p = .error e) :
    UpdateUser db userID p = .error e := by
  unfold UpdateUser
  rw [hf]
  show applyUserUpdates db u p >>= _ = _
  rw [ha]
  rfl

/-- The merge step rejects a patch email that any stored row already holds:
the query has no soft-delete filter and only RowsAffected is inspected. -/
theorem applyUserUpdates_conflict (db : DB) (u patch other : User)
    (hfail : db.fail = none)
    (hne : patch.email ≠ "") (hdiff : patch.email ≠ u.email)
    (hmem : other ∈ db.rows) (hemail : other.email = patch.email) :
    applyUserUpdates db u patch =
      .error { code := .deletionFailed, message := "The email is already occupied by another user." } := by
  have hsome : (db.rows.find? (fun x => x.email == patch.email)).isSome := by
    refine List.find?_isSome.mpr ⟨other, hmem, ?_⟩
    simp [hemail]
  obtain ⟨v, hv⟩ := Option.isSome_iff_exists.mp hsome
  cases db with
  | mk rows fail =>
    cases hfail
    simp only [applyUserUpdates, runFirst] at *
    simp only [hv]
    simp [bne_iff_ne, hne, hdiff]

/-- The merge step is the identity on the fetched user when every patch field
is empty or zero. -/
theorem applyUserUpdates_empty (db : DB) (u patch : User)
    (h1 : patch.email = "") (h2 : patch.firstName = "") (h3 : patch.lastName = "")
    (h4 : patch.password = "") (h5 : patch.deletedAt = 0) (h6 : patch.roleID = 0) :
    applyUserUpdates db u patch = .ok u := by
  simp [applyUserUpdates, h1, h2, h3, h4, h5, h6]

/-- The merge step of a soft delete only sets the deletion timestamp. -/
theorem applyUserUpdates_delete_patch (db : DB) (u : User) (now : Int) (hnow : now ≠ 0) :
    applyUserUpdates db u { User.zero with deletedAt := now } =
      .ok { u with deletedAt := now } := by
  simp [applyUserUpdates, User.zero, hnow]

/-- Saving on a healthy connection replaces every row that shares the primary
key. -/
theorem saveUser_ok (db : DB) (u : User) (hfail : db.fail = none) :
    saveUser db u = .ok { db with rows := db.rows.map (fun r => if r.id == u.id then u else r) } := by
  cases db with
  | mk rows fail =>
    cases hfail
    rfl

/-! ### Claim C8 -/

/-- C8 counterexample: a storage failure (injected error with zero rows
affected, as gorm reports a failed query) over a table in which a live user
does hold the email yields a nil result and a nil error: the failure is
swallowed rather than returned, so absence is not the only case in which an
error is suppressed. -/
theorem getUserByEmail_swallows_failure :
    GetUserByEmail { rows := [⟨1, "bo@example.com", "Bo", "Ng", "pw", 0, 0, 0⟩],
                     fail := some "connection refused" } "bo@example.com" = .ok none := by
  decide

/-- C8 as amended: GetUserByEmail returns a nil result with no error whenever
the lookup reports an error with zero rows affected: this covers absence but
also every storage failure, since a failed query affects no rows; an error is
returned only when the query errors with a positive RowsAffected count, and a
successful lookup returns the found non-deleted user. -/
theorem getUserByEmail_absence_and_failures (db : DB) (email : String) :
    (db.fail = none →
      (∀ u ∈ db.rows, ¬(u.email = email ∧ u.deletedAt = 0)) →
      GetUserByEmail db email = .ok none) ∧
    (∀ e, db.fail = some e → GetUserByEmail db email = .ok none) ∧
    (∀ u, db.fail = none →
      db.rows.find? (fun x => x.email == email && x.deletedAt == 0) = some u →
      GetUserByEmail db email = .ok (some u)) := by
  refine ⟨?_, ?_, ?_⟩
  · intro hfail habs
    have hfind : db.rows.find? (fun x => x.email == email && x.deletedAt == 0) = none := by
      refine List.find?_eq_none.mpr ?_
      intro x hx
      simp only [Bool.and_eq_true, beq_iff_eq, not_and]
      exact fun hxe hxd => habs x hx ⟨hxe, hxd⟩
    cases db with
    | mk rows fail =>
      cases hfail
      simp only [GetUserByEmail, runFirst]
      simp only [hfind]
      rfl
  · intro e hfail
    cases db with
    | mk rows fail =>
      cases hfail
      rfl
  · intro u hfail hfind
    cases db with
    | mk rows fail =>
      cases hfail
      simp only [GetUserByEmail, runFirst]
      simp only [hfind]
      rfl

/-- Witness for the amended C8: a failed lookup is reported as a nil user
with a nil error. -/
theorem getUserByEmail_absence_and_failures_witness :
    GetUserByEmail { rows := [⟨1, "cy@example.com", "Cy", "Ode", "pw", 0, 0, 0⟩],
                     fail := some "timeout" } "cy@example.com" = .ok none :=
  (getUserByEmail_absence_and_failures
    { rows := [⟨1, "cy@example.com", "Cy", "Ode", "pw", 0, 0, 0⟩],
      fail := some "timeout" } "cy@example.com").2.1 "timeout" rfl

/-! ### Claim C3 -/

/-- C3 counterexample: over a one-user table, the first DeleteUser soft
deletes the user but the second call on the same id does not succeed: the
fetch step of the update pipeline excludes soft-deleted rows, so the second
call fails with NoRecordFound instead of re-running the merge. -/
theorem deleteUser_twice_second_call_fails :
    DeleteUser { rows := [⟨1, "ann@example.com", "Ann", "Lee", "pw", 0, 0, 0⟩], fail := none } 1 100 =
      .ok ({ rows := [⟨1, "ann@example.com", "Ann", "Lee", "pw", 0, 0, 100⟩], fail := none },
           ⟨1, "ann@example.com", "Ann", "Lee", "pw", 0, 0, 100⟩) ∧
    DeleteUser { rows := [⟨1, "ann@example.com", "Ann", "Lee", "pw", 0, 0, 100⟩], fail := none } 1 200 =
      .error { code := .noRecordFound, message := "No user found with the given ID." } :=
  ⟨by decide, by decide⟩

/-- C3 as amended: a first successful DeleteUser sets the deletion timestamp,
and a second DeleteUser on the same id finds the terminal state already in
place: the stored user stays soft-deleted, but the second call fails with
NoRecordFound (its fetch step excludes soft-deleted rows) rather than
re-running the merge as a no-op. -/
theorem deleteUser_twice_terminal_state (db : DB) (userID : Nat) (now now2 : Int)
    (db1 : DB) (u1 : User) (hnow : now ≠ 0)
    (h1 : DeleteUser db userID now = .ok (db1, u1)) :
    u1.deletedAt = now ∧
    DeleteUser db1 userID now2 =
      .error { code := .noRecordFound, message := "No user found with the given ID." } := by
  unfold DeleteUser at h1
  obtain ⟨u, hf, ha, hs⟩ := UpdateUser_ok_inv _ _ _ _ _ h1
  rw [applyUserUpdates_delete_patch db u now hnow] at ha
  have hu1 : { u with deletedAt := now } = u1 := by
    injection ha
  obtain ⟨hfail, hfind⟩ := (fetchUser_ok_iff db userID u).mp hf
  have hpred := List.find?_some hfind
  simp only [liveById, Bool.and_eq_true, beq_iff_eq] at hpred
  rw [saveUser_ok db u1 hfail] at hs
  have hdb1 : ({ db with rows := db.rows.map (fun r => if r.id == u1.id then u1 else r) } : DB) = db1 := by
    injection hs
  constructor
  · rw [← hu1]
  · unfold DeleteUser
    apply UpdateUser_err_of_fetch
    apply fetchUser_not_found
    refine List.find?_eq_none.mpr ?_
    intro x hx
    rw [← hdb1] at hx
    simp only at hx
    obtain ⟨r, hr, hxr⟩ := List.mem_map.mp hx
    by_cases hid : r.id = u1.id
    · have hx1 : x = u1 := by rw [← hxr]; simp [hid]
      have : u1.deletedAt = now := by rw [← hu1]
      simp [liveById, hx1, this, hnow]
    · have hx1 : x = r := by rw [← hxr]; simp [hid]
      have hru : r.id ≠ userID := by
        rw [← hu1] at hid
        simpa [hpred.1] using hid
      simp [liveById, hx1, hru]

/-- Witness for the amended C3 at a concrete one-user table. -/
theorem deleteUser_twice_terminal_state_witness :
    (⟨1, "ann@example.com", "Ann", "Lee", "pw", 0, 0, 100⟩ : User).deletedAt = 100 ∧
    DeleteUser { rows := [⟨1, "ann@example.com", "Ann", "Lee", "pw", 0, 0, 100⟩], fail := none } 1 200 =
      .error { code := .noRecordFound, message := "No user found with the given ID." } :=
  deleteUser_twice_terminal_state
    { rows := [⟨1, "ann@example.com", "Ann", "Lee", "pw", 0, 0, 0⟩], fail := none } 1 100 200
    { rows := [⟨1, "ann@example.com", "Ann", "Lee", "pw", 0, 0, 100⟩], fail := none }
    ⟨1, "ann@example.com", "Ann", "Lee", "pw", 0, 0, 100⟩
    (by decide) (by decide)

/-! ### Claim C5 -/

/-- C5: when the patch carries a non-empty email different from the target
current email and some live user already holds it, UpdateUser fails with the
DeletionFailed-class conflict error; the pipeline stops before the persist
step, so the error return carries no updated state and the target user is
neither mutated nor persisted. -/
theorem updateUser_email_conflict_no_mutation (db : DB) (userID : Nat) (patch target other : User)
    (hfetch : fetchUser db userID = .ok target)
    (hne : patch.email ≠ "") (hdiff : patch.email ≠ target.email)
    (hmem : other ∈ db.rows) (hemail : other.email = patch.email)
    (_hlive : other.deletedAt = 0) :
    UpdateUser db userID patch =
      .error { code := .deletionFailed, message := "The email is already occupied by another user." } := by
  have hfail := ((fetchUser_ok_iff db userID target).mp hfetch).1
  exact UpdateUser_err_of_apply db userID patch target _
    hfetch (applyUserUpdates_conflict db target patch other hfail hne hdiff hmem hemail)

/-- Witness for C5: renaming user 1 to the live email of user 2 is
rejected. -/
theorem updateUser_email_conflict_no_mutation_witness :
    UpdateUser { rows := [⟨1, "ann@example.com", "Ann", "Lee", "pw", 0, 0, 0⟩,
                          ⟨2, "bob@example.com", "Bob", "Kim", "pw", 0, 0, 0⟩], fail := none } 1
        { User.zero with email := "bob@example.com" } =
      .error { code := .deletionFailed, message := "The email is already occupied by another user." } :=
  updateUser_email_conflict_no_mutation
    { rows := [⟨1, "ann@example.com", "Ann", "Lee", "pw", 0, 0, 0⟩,
               ⟨2, "bob@example.com", "Bob", "Kim", "pw", 0, 0, 0⟩], fail := none } 1
    { User.zero with email := "bob@example.com" }
    ⟨1, "ann@example.com", "Ann", "Lee", "pw", 0, 0, 0⟩
    ⟨2, "bob@example.com", "Bob", "Kim", "pw", 0, 0, 0⟩
    (by decide) (by decide) (by decide) (by decide) (by decide) (by decide)

/-! ### Claim C10 -/

/-- C10: the email-uniqueness query of the merge step has no soft-delete
filter, so a patch email held only by a soft-deleted user is still rejected
with the conflict error. -/
theorem updateUser_conflict_sees_soft_deleted (db : DB) (userID : Nat) (patch target ghost : User)
    (hfetch : fetchUser db userID = .ok target)
    (hne : patch.email ≠ "") (hdiff : patch.email ≠ target.email)
    (hmem : ghost ∈ db.rows) (hemail : ghost.email = patch.email)
    (_hdel : ghost.deletedAt ≠ 0) :
    UpdateUser db userID patch =
      .error { code := .deletionFailed, message := "The email is already occupied by another user." } := by
  have hfail := ((fetchUser_ok_iff db userID target).mp hfetch).1
  exact UpdateUser_err_of_apply db userID patch target _
    hfetch (applyUserUpdates_conflict db target patch ghost hfail hne hdiff hmem hemail)

/-- Witness for C10: the conflicting email is held only by a soft-deleted
user, yet the rename is rejected. -/
theorem updateUser_conflict_sees_soft_deleted_witness :
    UpdateUser { rows := [⟨1, "ann@example.com", "Ann", "Lee", "pw", 0, 0, 0⟩,
                          ⟨2, "old@example.com", "Old", "Gone", "pw", 0, 0, 99⟩], fail := none } 1
        { User.zero with email := "old@example.com" } =
      .error { code := .deletionFailed, message := "The email is already occupied by another user." } :=
  updateUser_conflict_sees_soft_deleted
    { rows := [⟨1, "ann@example.com", "Ann", "Lee", "pw", 0, 0, 0⟩,
               ⟨2, "old@example.com", "Old", "Gone", "pw", 0, 0, 99⟩], fail := none } 1
    { User.zero with email := "old@example.com" }
    ⟨1, "ann@example.com", "Ann", "Lee", "pw", 0, 0, 0⟩
    ⟨2, "old@example.com", "Old", "Gone", "pw", 0, 0, 99⟩
    (by decide) (by decide) (by decide) (by decide) (by decide) (by decide)

/-! ### Claim C6 -/

/-- C6: an empty patch (all string fields empty, RoleID and DeletedAt zero)
leaves the stored user unchanged: the merged entity equals the fetched one
and, when ids are unique, the persisted table equals the original. -/
theorem updateUser_empty_patch_identity (db : DB) (userID : Nat) (patch u : User)
    (h1 : patch.email = "") (h2 : patch.firstName = "") (h3 : patch.lastName = "")
    (h4 : patch.password = "") (h5 : patch.deletedAt = 0) (h6 : patch.roleID = 0)
    (hfetch : fetchUser db userID = .ok u)
    (huniq : ∀ r ∈ db.rows, r.id = u.id → r = u) :
    UpdateUser db userID patch = .ok (db, u) := by
  have hfail := ((fetchUser_ok_iff db userID u).mp hfetch).1
  have happly := applyUserUpdates_empty db u patch h1 h2 h3 h4 h5 h6
  have hmap : db.rows.map (fun r => if r.id == u.id then u else r) = db.rows := by
    have := List.map_congr_left (l := db.rows)
      (f := fun r => if r.id == u.id then u else r) (g := id)
      (fun r hr => by
        by_cases hid : r.id = u.id
        · simp [hid, (huniq r hr hid).symm]
        · simp [hid])
    simpa using this
  have hsave : saveUser db u = .ok db := by
    rw [saveUser_ok db u hfail, hmap]
  unfold UpdateUser
  rw [hfetch]
  show applyUserUpdates db u patch >>= _ = _
  rw [happly]
  show saveUser db u >>= _ = _
  rw [hsave]
  rfl

/-- Witness for C6: the all-zero patch leaves a two-row table untouched. -/
theorem updateUser_empty_patch_identity_witness :
    UpdateUser { rows := [⟨1, "ann@example.com", "Ann", "Lee", "pw", 3, 7, 0⟩,
                          ⟨2, "bob@example.com", "Bob", "Kim", "pw", 0, 0, 0⟩], fail := none } 1
        User.zero =
      .ok ({ rows := [⟨1, "ann@example.com", "Ann", "Lee", "pw", 3, 7, 0⟩,
                      ⟨2, "bob@example.com", "Bob", "Kim", "pw", 0, 0, 0⟩], fail := none },
           ⟨1, "ann@example.com", "Ann", "Lee", "pw", 3, 7, 0⟩) :=
  updateUser_empty_patch_identity
    { rows := [⟨1, "ann@example.com", "Ann", "Lee", "pw", 3, 7, 0⟩,
               ⟨2, "bob@example.com", "Bob", "Kim", "pw", 0, 0, 0⟩], fail := none } 1
    User.zero ⟨1, "ann@example.com", "Ann", "Lee", "pw", 3, 7, 0⟩
    rfl rfl rfl rfl rfl rfl (by decide) (by decide)

/-! ### Claim C1 -/

/-- C1: when the voter loads successfully and less than one hour has elapsed
since VoteUpdatedAt, Vote fails with the VoteCooldown error; the returned
trace holds the voter load only, so no vote lookup and no storage write is
performed and the cooldown check precedes both, and the error return carries
no updated state. -/
theorem vote_cooldown_blocks (s : ServiceState) (req : Vote) (now : Int) (voter : User)
    (hvoter : GetUserByID s.userDB req.userID = .ok voter)
    (hcool : now - voter.voteUpdatedAt < voteCooldownWindow) :
    UserService.Vote s req now =
      (.error { code := .voteCooldown, message := "The vote cooldown window has not elapsed." },
       [.getUserByID req.userID]) := by
  unfold UserService.Vote
  rw [hvoter]
  simp [hcool]

/-- Witness for C1: a voter thirty minutes into the window is rejected. -/
theorem vote_cooldown_blocks_witness :
    UserService.Vote
      { userDB := { rows := [⟨1, "vic@example.com", "Vic", "Ash", "pw", 0, 1000, 0⟩], fail := none },
        votes := [], nextVoteID := 5 } ⟨0, 1, 2, 1⟩ 2800 =
      (.error { code := .voteCooldown, message := "The vote cooldown window has not elapsed." },
       [.getUserByID 1]) :=
  vote_cooldown_blocks
    { userDB := { rows := [⟨1, "vic@example.com", "Vic", "Ash", "pw", 0, 1000, 0⟩], fail := none },
      votes := [], nextVoteID := 5 } ⟨0, 1, 2, 1⟩ 2800
    ⟨1, "vic@example.com", "Vic", "Ash", "pw", 0, 1000, 0⟩
    (by decide) (by decide)

/-! ### Claim C2 -/

/-- C2: past the cooldown, Vote either creates a new vote carrying the
requested value under the next storage identity and returns that identity
(when no vote exists for the voter and profile pair), or updates the existing
record in place, leaving the vote list the same length with no duplicate and
no fresh identity, and returns the existing id. -/
theorem vote_create_or_update (s : ServiceState) (req : Vote) (now : Int) (voter : User)
    (hvoter : GetUserByID s.userDB req.userID = .ok voter)
    (hcool : voteCooldownWindow ≤ now - voter.voteUpdatedAt) :
    (GetVote s.votes req.userID req.profileID = none →
      UserService.Vote s req now =
        (.ok (s.nextVoteID,
          refreshVoter
            { s with votes := s.votes ++ [mkVote s.nextVoteID req.userID req.profileID req.value],
                     nextVoteID := s.nextVoteID + 1 } req.userID now),
         [.getUserByID req.userID, .getVote req.userID req.profileID,
          .createVote (mkVote s.nextVoteID req.userID req.profileID req.value),
          .refreshVoteUpdatedAt req.userID])) ∧
    (∀ ev, GetVote s.votes req.userID req.profileID = some ev →
      UserService.Vote s req now =
        (.ok (ev.id,
          refreshVoter
            { s with votes := s.votes.map (fun v => if v.id == ev.id then { ev with value := req.value } else v) }
            req.userID now),
         [.getUserByID req.userID, .getVote req.userID req.profileID,
          .updateVote { ev with value := req.value },
          .refreshVoteUpdatedAt req.userID])) := by
  have hnc : ¬ now - voter.voteUpdatedAt < voteCooldownWindow := not_lt.mpr hcool
  constructor
  · intro hnone
    unfold UserService.Vote
    simp only [hvoter]
    rw [if_neg hnc]
    simp only [hnone]
    rfl
  · intro ev hsome
    unfold UserService.Vote
    simp only [hvoter]
    rw [if_neg hnc]
    simp only [hsome]

/-- Witness for C2: one concrete create (no prior vote) and one concrete
in-place update (prior vote present) past the cooldown. -/
theorem vote_create_or_update_witness :
    UserService.Vote
      { userDB := { rows := [⟨1, "vic@example.com", "Vic", "Ash", "pw", 0, -10000, 0⟩], fail := none },
        votes := [], nextVoteID := 5 } ⟨0, 1, 2, 1⟩ 0 =
      (.ok (5, { userDB := { rows := [⟨1, "vic@example.com", "Vic", "Ash", "pw", 0, 0, 0⟩], fail := none },
                 votes := [⟨5, 1, 2, 1⟩], nextVoteID := 6 }),
       [.getUserByID 1, .getVote 1 2, .createVote ⟨5, 1, 2, 1⟩, .refreshVoteUpdatedAt 1]) ∧
    UserService.Vote
      { userDB := { rows := [⟨1, "vic@example.com", "Vic", "Ash", "pw", 0, -10000, 0⟩], fail := none },
        votes := [⟨9, 1, 2, -1⟩], nextVoteID := 10 } ⟨0, 1, 2, 1⟩ 0 =
      (.ok (9, { userDB := { rows := [⟨1, "vic@example.com", "Vic", "Ash", "pw", 0, 0, 0⟩], fail := none },
                 votes := [⟨9, 1, 2, 1⟩], nextVoteID := 10 }),
       [.getUserByID 1, .getVote 1 2, .updateVote ⟨9, 1, 2, 1⟩, .refreshVoteUpdatedAt 1]) :=
  ⟨((vote_create_or_update
      { userDB := { rows := [⟨1, "vic@example.com", "Vic", "Ash", "pw", 0, -10000, 0⟩], fail := none },
        votes := [], nextVoteID := 5 } ⟨0, 1, 2, 1⟩ 0
      ⟨1, "vic@example.com", "Vic", "Ash", "pw", 0, -10000, 0⟩
      (by decide) (by decide)).1 (by decide)).trans (by decide),
   ((vote_create_or_update
      { userDB := { rows := [⟨1, "vic@example.com", "Vic", "Ash", "pw", 0, -10000, 0⟩], fail := none },
        votes := [⟨9, 1, 2, -1⟩], nextVoteID := 10 } ⟨0, 1, 2, 1⟩ 0
      ⟨1, "vic@example.com", "Vic", "Ash", "pw", 0, -10000, 0⟩
      (by decide) (by decide)).2 ⟨9, 1, 2, -1⟩ (by decide)).trans (by decide)⟩

/-! ### Claim C4 -/

/-- Rows of the user table after a cooldown refresh: every row carrying the
voter id holds the new timestamp. -/
theorem refreshVoter_rows (s : ServiceState) (userID : Nat) (now : Int) :
    ∀ u ∈ (refreshVoter s userID now).userDB.rows, u.id = userID → u.voteUpdatedAt = now := by
  intro u hu hid
  simp only [refreshVoter] at hu
  obtain ⟨r, hr, hru⟩ := List.mem_map.mp hu
  by_cases h : r.id = userID
  · rw [← hru]
    simp [h]
  · exfalso
    apply h
    rw [← hru] at hid
    simp only [h, if_false, beq_iff_eq] at hid

/-- C4: every successful Vote call refreshes the voter VoteUpdatedAt exactly
once: the trace contains exactly one refresh event, and in the resulting
state every user row with the voter id carries the current time, gating the
next vote. -/
theorem vote_refreshes_voteUpdatedAt_once (s : ServiceState) (req : Vote) (now : Int)
    (voteID : Nat) (s1 : ServiceState) (tr : List StorageEvent)
    (h : UserService.Vote s req now = (.ok (voteID, s1), tr)) :
    tr.countP StorageEvent.isRefresh = 1 ∧
    ∀ u ∈ s1.userDB.rows, u.id = req.userID → u.voteUpdatedAt = now := by
  unfold UserService.Vote at h
  cases hg : GetUserByID s.userDB req.userID with
  | error e =>
    rw [hg] at h
    simp at h
  | ok voter =>
    simp only [hg] at h
    by_cases hc : now - voter.voteUpdatedAt < voteCooldownWindow
    · rw [if_pos hc] at h
      simp at h
    · rw [if_neg hc] at h
      cases hv : GetVote s.votes req.userID req.profileID with
      | none =>
        simp only [hv] at h
        simp only [Prod.mk.injEq, Except.ok.injEq] at h
        obtain ⟨⟨-, hs1⟩, htr⟩ := h
        subst hs1
        subst htr
        exact ⟨rfl, refreshVoter_rows _ _ _⟩
      | some ev =>
        simp only [hv] at h
        simp only [Prod.mk.injEq, Except.ok.injEq] at h
        obtain ⟨⟨-, hs1⟩, htr⟩ := h
        subst hs1
        subst htr
        exact ⟨rfl, refreshVoter_rows _ _ _⟩

/-- Witness for C4: a successful create vote leaves exactly one refresh event
in the trace. -/
theorem vote_refreshes_voteUpdatedAt_once_witness :
    List.countP StorageEvent.isRefresh
      [.getUserByID 1, .getVote 1 2, .createVote ⟨5, 1, 2, 1⟩, .refreshVoteUpdatedAt 1] = 1 :=
  (vote_refreshes_voteUpdatedAt_once
    { userDB := { rows := [⟨1, "vic@example.com", "Vic", "Ash", "pw", 0, -10000, 0⟩], fail := none },
      votes := [], nextVoteID := 5 } ⟨0, 1, 2, 1⟩ 0 5
    { userDB := { rows := [⟨1, "vic@example.com", "Vic", "Ash", "pw", 0, 0, 0⟩], fail := none },
      votes := [⟨5, 1, 2, 1⟩], nextVoteID := 6 }
    [.getUserByID 1, .getVote 1 2, .createVote ⟨5, 1, 2, 1⟩, .refreshVoteUpdatedAt 1]
    (by decide)).1
